import Mathlib

/-!
Verification of the FlexCAN controller driver core
(drivers/net/can/flexcan.c) against its natural-language specification.

The driver's register-level logic is shallowly embedded: machine words are
modelled as `Nat` (with explicit masking where 32-bit overflow matters),
hardware reads are passed in explicitly (either as captured register values
or as read oracles), and each C function of interest becomes a pure Lean
function over those inputs, returning its result together with the side
effects (register writes, synthesized error frames, statistics updates)
that the C code performs.
-/

namespace Flexcan

/-! ### Register bit constants, from the C `#define`s -/

/-- FLEXCAN module configuration register (CANMCR) bits. -/
def FLEXCAN_MCR_HALT : Nat := 1 <<< 28

def FLEXCAN_MCR_FRZ_ACK : Nat := 1 <<< 24

/-- FLEXCAN error and status register (ESR) bits. -/
def FLEXCAN_ESR_TWRN_INT : Nat := 1 <<< 17

def FLEXCAN_ESR_RWRN_INT : Nat := 1 <<< 16

def FLEXCAN_ESR_BIT1_ERR : Nat := 1 <<< 15

def FLEXCAN_ESR_BIT0_ERR : Nat := 1 <<< 14

def FLEXCAN_ESR_ACK_ERR : Nat := 1 <<< 13

def FLEXCAN_ESR_CRC_ERR : Nat := 1 <<< 12

def FLEXCAN_ESR_FRM_ERR : Nat := 1 <<< 11

def FLEXCAN_ESR_STF_ERR : Nat := 1 <<< 10

def FLEXCAN_ESR_TX_WRN : Nat := 1 <<< 9

def FLEXCAN_ESR_RX_WRN : Nat := 1 <<< 8

def FLEXCAN_EST_FLT_CONF_SHIFT : Nat := 4

def FLEXCAN_ESR_FLT_CONF_MASK : Nat := 0x3 <<< FLEXCAN_EST_FLT_CONF_SHIFT

def FLEXCAN_ESR_FLT_CONF_ACTIVE : Nat := 0x0 <<< FLEXCAN_EST_FLT_CONF_SHIFT

def FLEXCAN_ESR_FLT_CONF_PASSIVE : Nat := 0x1 <<< FLEXCAN_EST_FLT_CONF_SHIFT

def FLEXCAN_ESR_BOFF_INT : Nat := 1 <<< 2

def FLEXCAN_ESR_ERR_INT : Nat := 1 <<< 1

def FLEXCAN_ESR_WAK_INT : Nat := 1 <<< 0

def FLEXCAN_ESR_ERR_BUS : Nat :=
  FLEXCAN_ESR_BIT1_ERR ||| FLEXCAN_ESR_BIT0_ERR |||
  FLEXCAN_ESR_ACK_ERR ||| FLEXCAN_ESR_CRC_ERR |||
  FLEXCAN_ESR_FRM_ERR ||| FLEXCAN_ESR_STF_ERR

def FLEXCAN_ESR_ERR_STATE : Nat :=
  FLEXCAN_ESR_TWRN_INT ||| FLEXCAN_ESR_RWRN_INT ||| FLEXCAN_ESR_BOFF_INT

def FLEXCAN_ESR_ALL_INT : Nat :=
  FLEXCAN_ESR_TWRN_INT ||| FLEXCAN_ESR_RWRN_INT |||
  FLEXCAN_ESR_BOFF_INT ||| FLEXCAN_ESR_ERR_INT |||
  FLEXCAN_ESR_WAK_INT

/-- FLEXCAN interrupt flag register (IFLAG) bits. -/
def FLEXCAN_RESERVED_BUF_ID : Nat := 8

def FLEXCAN_TX_BUF_ID : Nat := 13

def FLEXCAN_IFLAG_RX_FIFO_OVERFLOW : Nat := 1 <<< 7

def FLEXCAN_IFLAG_RX_FIFO_WARN : Nat := 1 <<< 6

def FLEXCAN_IFLAG_RX_FIFO_AVAILABLE : Nat := 1 <<< 5

/-- Message buffer control word fields. -/
def FLEXCAN_MB_CNT_CODE (x : Nat) : Nat := (x &&& 0xf) <<< 24

def FLEXCAN_MB_CNT_SRR : Nat := 1 <<< 22

def FLEXCAN_MB_CNT_IDE : Nat := 1 <<< 21

def FLEXCAN_MB_CNT_RTR : Nat := 1 <<< 20

def FLEXCAN_MB_CNT_LENGTH (x : Nat) : Nat := (x &&& 0xf) <<< 16

/-- Linux CAN identifier flag and mask constants (linux/can.h). -/
def CAN_EFF_FLAG : Nat := 0x80000000

def CAN_RTR_FLAG : Nat := 0x40000000

def CAN_ERR_FLAG : Nat := 0x20000000

def CAN_SFF_MASK : Nat := 0x7ff

def CAN_EFF_MASK : Nat := 0x1fffffff

/-- Linux CAN error frame class bits in `can_id` (linux/can/error.h). -/
def CAN_ERR_CRTL : Nat := 0x4

def CAN_ERR_PROT : Nat := 0x8

def CAN_ERR_ACK : Nat := 0x20

def CAN_ERR_BUSOFF : Nat := 0x40

def CAN_ERR_BUSERROR : Nat := 0x80

/-- Controller-status byte values for `data[1]` of an error frame. -/
def CAN_ERR_CRTL_RX_WARNING : Nat := 0x4

def CAN_ERR_CRTL_TX_WARNING : Nat := 0x8

def CAN_ERR_CRTL_RX_PASSIVE : Nat := 0x10

def CAN_ERR_CRTL_TX_PASSIVE : Nat := 0x20

/-- Protocol error value for `data[2]` of an error frame. -/
def CAN_ERR_PROT_ACTIVE : Nat := 0x40

/-- Linux `enum can_state` values. -/
def CAN_STATE_ERROR_ACTIVE : Nat := 0

def CAN_STATE_ERROR_WARNING : Nat := 1

def CAN_STATE_ERROR_PASSIVE : Nat := 2

def CAN_STATE_BUS_OFF : Nat := 3

def CAN_STATE_STOPPED : Nat := 4

def CAN_STATE_SLEEPING : Nat := 5

/-! ### Embedded driver state and operations -/

/--
The `new_state` computation at the top of `flexcan_poll_state`
(flexcan.c lines 707-717): classify the ESR value into a CAN state from
the fault-confinement field and the TX/RX warning bits.
-/
def flexcan_new_state (reg_esr : Nat) : Nat :=
  let flt := reg_esr &&& FLEXCAN_ESR_FLT_CONF_MASK
  if flt = FLEXCAN_ESR_FLT_CONF_ACTIVE then
    if reg_esr &&& (FLEXCAN_ESR_TX_WRN ||| FLEXCAN_ESR_RX_WRN) = 0 then
      CAN_STATE_ERROR_ACTIVE
    else
      CAN_STATE_ERROR_WARNING
  else if flt = FLEXCAN_ESR_FLT_CONF_PASSIVE then
    CAN_STATE_ERROR_PASSIVE
  else
    CAN_STATE_BUS_OFF

/-- The parts of a CAN error frame that `do_state` reads or writes. -/
structure ErrFrame where
  can_id : Nat
  can_dlc : Nat
  data1 : Nat
  data2 : Nat
deriving DecidableEq

def CAN_ERR_DLC : Nat := 8

/-- A fresh frame from `alloc_can_err_skb`: the error flag is preset in
`can_id`, the length is `CAN_ERR_DLC` and the payload is zeroed. -/
def alloc_can_err_frame : ErrFrame :=
  { can_id := CAN_ERR_FLAG, can_dlc := CAN_ERR_DLC, data1 := 0, data2 := 0 }

/-- The side effects of one `do_state` call. -/
structure StateEffects where
  frame : ErrFrame
  error_warning_inc : Nat
  error_passive_inc : Nat
  bus_off_calls : Nat
deriving DecidableEq

/--
`do_state` (flexcan.c lines 633-697), with the two hardware error counters
passed in place of the `flexcan_get_berr_counter` read.  In the first
`switch` the `ERROR_ACTIVE` case falls through into the `ERROR_WARNING`
case, so the warning block runs only when the previous state was
ERROR_ACTIVE while the passive block runs when it was ERROR_ACTIVE or
ERROR_WARNING; the BUS_OFF case and the default case only log.  The second
`switch` then acts on the new state: ERROR_ACTIVE marks protocol-error
recovery, BUS_OFF marks the frame and calls `can_bus_off`.
-/
def do_state (priv_state txerr rxerr new_state : Nat) (cf : ErrFrame) : StateEffects :=
  let warn_taken : Prop :=
    priv_state = CAN_STATE_ERROR_ACTIVE ∧
    CAN_STATE_ERROR_WARNING ≤ new_state ∧ new_state ≤ CAN_STATE_BUS_OFF
  let passive_taken : Prop :=
    (priv_state = CAN_STATE_ERROR_ACTIVE ∨ priv_state = CAN_STATE_ERROR_WARNING) ∧
    CAN_STATE_ERROR_PASSIVE ≤ new_state ∧ new_state ≤ CAN_STATE_BUS_OFF
  let cf1 :=
    if warn_taken then
      { cf with
        can_id := cf.can_id ||| CAN_ERR_CRTL,
        data1 := if txerr > rxerr then CAN_ERR_CRTL_TX_WARNING
                 else CAN_ERR_CRTL_RX_WARNING }
    else cf
  let cf2 :=
    if passive_taken then
      { cf1 with
        can_id := cf1.can_id ||| CAN_ERR_CRTL,
        data1 := if txerr > rxerr then CAN_ERR_CRTL_TX_PASSIVE
                 else CAN_ERR_CRTL_RX_PASSIVE }
    else cf1
  let cf3 :=
    if new_state = CAN_STATE_ERROR_ACTIVE then
      { cf2 with
        can_id := cf2.can_id ||| CAN_ERR_PROT,
        data2 := CAN_ERR_PROT_ACTIVE }
    else if new_state = CAN_STATE_BUS_OFF then
      { cf2 with can_id := cf2.can_id ||| CAN_ERR_BUSOFF }
    else cf2
  { frame := cf3,
    error_warning_inc := if warn_taken then 1 else 0,
    error_passive_inc := if passive_taken then 1 else 0,
    bus_off_calls := if new_state = CAN_STATE_BUS_OFF then 1 else 0 }

/-- The observable outcome of one `flexcan_poll_state` call. -/
structure PollStateResult where
  state : Nat
  frames : List ErrFrame
  bus_off_calls : Nat
  ret : Nat
deriving DecidableEq

/--
`flexcan_poll_state` (flexcan.c lines 699-735): derive the new state from
the status register; when it differs from the recorded state, synthesize
one error frame through `do_state`, record the new state and deliver the
frame.  Skb allocation is modelled as succeeding.
-/
def flexcan_poll_state (priv_state reg_esr txerr rxerr : Nat) : PollStateResult :=
  let new_state := flexcan_new_state reg_esr
  if new_state = priv_state then
    { state := priv_state, frames := [], bus_off_calls := 0, ret := 0 }
  else
    let eff := do_state priv_state txerr rxerr new_state alloc_can_err_frame
    { state := new_state, frames := [eff.frame],
      bus_off_calls := eff.bus_off_calls, ret := 1 }

/--
The kernel bit scan `fls(x)`, one plus the index of the most significant
set bit of a 32-bit value (0 when `x = 0`), written as a structural scan
from the top bit down so that it evaluates by reduction.
-/
def fls_go (x : Nat) : Nat → Nat
  | 0 => 0
  | n + 1 => if x >>> n ≠ 0 then n + 1 else fls_go x n

def fls (x : Nat) : Nat := fls_go x 32

/-- `FLEXCAN_NAPI_WEIGHT`: 8 for the RX fifo and 2 for error handling. -/
def FLEXCAN_NAPI_WEIGHT : Nat := 8 + 2

/--
The `skb_queue_len_max` computation of `can_rx_offload_init_queue`
(flexcan.c lines 493-495): `offload->skb_queue_len_max = 2 << fls(weight)`
followed by `offload->skb_queue_len_max *= 4`.
-/
def can_rx_offload_queue_len_max (weight : Nat) : Nat :=
  (2 <<< fls weight) * 4

/-- `get_can_dlc`: clamp a data length code to the CAN maximum of 8. -/
def get_can_dlc (dlc : Nat) : Nat := min dlc 8

/--
`be32_to_cpup` applied to four payload bytes laid out in memory order
(first byte most significant), as done on `&cf->data[0]`/`&cf->data[4]`
in `flexcan_start_xmit`.
-/
def be32_pack (b0 b1 b2 b3 : Nat) : Nat :=
  b0 * 2 ^ 24 + b1 * 2 ^ 16 + b2 * 2 ^ 8 + b3

/--
Storing `cpu_to_be32 w` through `*(__be32 *)(cf->data + i)`: the four
bytes written, most significant first.
-/
def be32_unpack (w : Nat) : List Nat :=
  [w / 2 ^ 24 % 256, w / 2 ^ 16 % 256, w / 2 ^ 8 % 256, w % 256]

/-- One hardware message buffer: control word, id word, two data words. -/
structure RawMB where
  can_ctrl : Nat
  can_id : Nat
  data0 : Nat
  data1 : Nat
deriving DecidableEq

/-- A software CAN frame: flagged identifier, data length code, payload bytes. -/
structure CanFrame where
  can_id : Nat
  can_dlc : Nat
  data : List Nat
deriving DecidableEq

/--
The mailbox decode shared by `flexcan_read_fifo` and `flexcan_mailbox_read`
(flexcan.c lines 871-883): extract the identifier according to the IDE
flag, transfer the RTR flag, clamp the length code, and unpack the two
big-endian data words into payload bytes.
-/
def flexcan_mb_decode (mb : RawMB) : CanFrame :=
  let id0 :=
    if mb.can_ctrl &&& FLEXCAN_MB_CNT_IDE ≠ 0 then
      ((mb.can_id >>> 0) &&& CAN_EFF_MASK) ||| CAN_EFF_FLAG
    else
      (mb.can_id >>> 18) &&& CAN_SFF_MASK
  let id1 :=
    if mb.can_ctrl &&& FLEXCAN_MB_CNT_RTR ≠ 0 then id0 ||| CAN_RTR_FLAG
    else id0
  { can_id := id1,
    can_dlc := get_can_dlc ((mb.can_ctrl >>> 16) &&& 0xf),
    data := be32_unpack mb.data0 ++ be32_unpack mb.data1 }

/--
The transmit mailbox encoding of `flexcan_start_xmit` (flexcan.c lines
516-559): control word carries code 0xc and the length; an extended
identifier is written in full with IDE and SRR set, a standard one is
shifted into place; RTR sets its own bit; data words are written
big-endian, the first only when the length is positive, the second only
when it exceeds 3 (an unwritten word is modelled as 0).
-/
def flexcan_start_xmit_mb (cf : CanFrame) : RawMB :=
  let ctrl0 := FLEXCAN_MB_CNT_CODE 0xc ||| (cf.can_dlc <<< 16)
  let can_id :=
    if cf.can_id &&& CAN_EFF_FLAG ≠ 0 then cf.can_id &&& CAN_EFF_MASK
    else (cf.can_id &&& CAN_SFF_MASK) <<< 18
  let ctrl1 :=
    if cf.can_id &&& CAN_EFF_FLAG ≠ 0 then
      ctrl0 ||| FLEXCAN_MB_CNT_IDE ||| FLEXCAN_MB_CNT_SRR
    else ctrl0
  let ctrl2 :=
    if cf.can_id &&& CAN_RTR_FLAG ≠ 0 then ctrl1 ||| FLEXCAN_MB_CNT_RTR
    else ctrl1
  let data0 :=
    if cf.can_dlc > 0 then
      be32_pack (cf.data.getD 0 0) (cf.data.getD 1 0)
        (cf.data.getD 2 0) (cf.data.getD 3 0)
    else 0
  let data1 :=
    if cf.can_dlc > 3 then
      be32_pack (cf.data.getD 4 0) (cf.data.getD 5 0)
        (cf.data.getD 6 0) (cf.data.getD 7 0)
    else 0
  { can_ctrl := ctrl2, can_id := can_id, data0 := data0, data1 := data1 }

/--
The state shared by the interrupt-time receive path: the bounded skb
queue with its configured maximum, the drop counter, the frames still
pending in the hardware FIFO, and a count of hardware acknowledges
(each a write of `FLEXCAN_IFLAG_RX_FIFO_AVAILABLE` to `iflag1` followed
by the dummy `timer` read).
-/
structure OffloadState where
  skb_queue : List CanFrame
  skb_queue_len_max : Nat
  rx_dropped : Nat
  fifo : List RawMB
  acks : Nat
deriving DecidableEq

/--
`flexcan_mailbox_read` (flexcan.c lines 831-891): return 0 when the
FIFO-available flag is clear; otherwise optionally decode the mailbox
into a fresh skb (skipped when `drop` is set; allocation is modelled as
succeeding), always acknowledge the mailbox, and return 1.  The result
is `(return value, skb, updated state)`.
-/
def flexcan_mailbox_read (drop : Bool) (st : OffloadState) :
    Nat × Option CanFrame × OffloadState :=
  match st.fifo with
  | [] => (0, none, st)
  | mb :: rest =>
    let st' := { st with fifo := rest, acks := st.acks + 1 }
    if drop then (1, none, st')
    else (1, some (flexcan_mb_decode mb), st')

/--
`can_rx_offload_offload_one` (flexcan.c lines 893-914): read one mailbox,
requesting a discarding read when the queue length exceeds the configured
maximum; count a drop whenever the read consumed a frame but produced no
skb.
-/
def can_rx_offload_offload_one (st : OffloadState) :
    Option CanFrame × OffloadState :=
  let drop : Bool := st.skb_queue.length > st.skb_queue_len_max
  let r := flexcan_mailbox_read drop st
  if r.1 ≠ 0 ∧ r.2.1 = none then
    (r.2.1, { r.2.2 with rx_dropped := (r.2.2).rx_dropped + 1 })
  else
    (r.2.1, r.2.2)

/--
The drain loop of `can_rx_offload_irq_offload_fifo` (flexcan.c lines
924-939), written as structural recursion on the pending FIFO contents
(the list mirrors `st.fifo`): as long as `can_rx_offload_offload_one`
yields an skb, append it to the queue and count it; the loop stops at an
empty FIFO or at the first discarded frame.  Returns the final state and
the number of received frames.  The step theorem
`can_rx_offload_irq_offload_fifo_step` below identifies this loop with
iterating `can_rx_offload_offload_one`.
-/
def irq_offload_fifo_go : List RawMB → OffloadState → OffloadState × Nat
  | [], st => (st, 0)
  | mb :: rest, st =>
    if st.skb_queue.length > st.skb_queue_len_max then
      ({ st with fifo := rest, acks := st.acks + 1,
                 rx_dropped := st.rx_dropped + 1 }, 0)
    else
      let st' := { st with
        fifo := rest, acks := st.acks + 1,
        skb_queue := st.skb_queue ++ [flexcan_mb_decode mb] }
      let r := irq_offload_fifo_go rest st'
      (r.1, r.2 + 1)

def can_rx_offload_irq_offload_fifo (st : OffloadState) : OffloadState × Nat :=
  irq_offload_fifo_go st.fifo st

/-- Linux `irqreturn_t` values. -/
def IRQ_NONE : Nat := 0

def IRQ_HANDLED : Nat := 1

/-- The statistics counters touched by `flexcan_napi_irq`. -/
structure IrqStats where
  rx_over_errors : Nat
  rx_errors : Nat
  tx_packets : Nat
  esr_ack_writes : Nat
deriving DecidableEq

/--
`flexcan_napi_irq` (flexcan.c lines 999-1092): with the interrupt-flag
and status registers captured at entry, drain the FIFO when the
FIFO-available flag is set, acknowledge and count an overflow, complete a
transmission, and acknowledge any set status-register event bits; a local
`handled` variable is raised to `IRQ_HANDLED` by each branch taken, but
the function's final statement returns the constant `IRQ_HANDLED`.
The result is `(returned value, final value of the local handled
variable, offload state, stats)`.
-/
def flexcan_napi_irq (reg_iflag1 reg_esr : Nat) (st : OffloadState)
    (stats : IrqStats) : Nat × Nat × OffloadState × IrqStats :=
  let handled0 := IRQ_NONE
  let rx_taken : Bool := reg_iflag1 &&& FLEXCAN_IFLAG_RX_FIFO_AVAILABLE ≠ 0
  let handled1 := if rx_taken then IRQ_HANDLED else handled0
  let st1 := if rx_taken then (can_rx_offload_irq_offload_fifo st).1 else st
  let ovf_taken : Bool := reg_iflag1 &&& FLEXCAN_IFLAG_RX_FIFO_OVERFLOW ≠ 0
  let handled2 := if ovf_taken then IRQ_HANDLED else handled1
  let stats2 :=
    if ovf_taken then
      { stats with rx_over_errors := stats.rx_over_errors + 1,
                   rx_errors := stats.rx_errors + 1 }
    else stats
  let tx_taken : Bool := reg_iflag1 &&& (1 <<< FLEXCAN_TX_BUF_ID) ≠ 0
  let handled3 := if tx_taken then IRQ_HANDLED else handled2
  let stats3 :=
    if tx_taken then { stats2 with tx_packets := stats2.tx_packets + 1 }
    else stats2
  let esr_taken : Bool := reg_esr &&& FLEXCAN_ESR_ALL_INT ≠ 0
  let handled4 := if esr_taken then IRQ_HANDLED else handled3
  let stats4 :=
    if esr_taken then
      { stats3 with esr_ack_writes := stats3.esr_ack_writes + 1 }
    else stats3
  (IRQ_HANDLED, handled4, st1, stats4)

/-- Whether any condition recognized by `flexcan_napi_irq` is present. -/
def flexcan_irq_condition (reg_iflag1 reg_esr : Nat) : Prop :=
  reg_iflag1 &&& FLEXCAN_IFLAG_RX_FIFO_AVAILABLE ≠ 0 ∨
  reg_iflag1 &&& FLEXCAN_IFLAG_RX_FIFO_OVERFLOW ≠ 0 ∨
  reg_iflag1 &&& (1 <<< FLEXCAN_TX_BUF_ID) ≠ 0 ∨
  reg_esr &&& FLEXCAN_ESR_ALL_INT ≠ 0

/-- FLEXCAN control register (CANCTRL) bit fields. -/
def FLEXCAN_CTRL_PRESDIV (x : Nat) : Nat := (x &&& 0xff) <<< 24

def FLEXCAN_CTRL_RJW (x : Nat) : Nat := (x &&& 0x03) <<< 22

def FLEXCAN_CTRL_PSEG1 (x : Nat) : Nat := (x &&& 0x07) <<< 19

def FLEXCAN_CTRL_PSEG2 (x : Nat) : Nat := (x &&& 0x07) <<< 16

def FLEXCAN_CTRL_LPB : Nat := 1 <<< 12

def FLEXCAN_CTRL_SMP : Nat := 1 <<< 7

def FLEXCAN_CTRL_LOM : Nat := 1 <<< 3

def FLEXCAN_CTRL_PROPSEG (x : Nat) : Nat := x &&& 0x07

/--
The control-register value written by `flexcan_set_bittiming` (flexcan.c
lines 1100-1131): clear the timing fields and the mode bits of the
current 32-bit register value (the C `reg &= ~(...)`), insert each timing
parameter minus one into its field, then re-apply the loopback,
listen-only and triple-sampling mode bits from the operating-mode flags.
-/
def flexcan_set_bittiming_reg (reg_old brp prop_seg phase_seg1 phase_seg2 sjw : Nat)
    (loopback listenonly three_samples : Bool) : Nat :=
  let mask := FLEXCAN_CTRL_PRESDIV 0xff ||| FLEXCAN_CTRL_RJW 0x3 |||
    FLEXCAN_CTRL_PSEG1 0x7 ||| FLEXCAN_CTRL_PSEG2 0x7 |||
    FLEXCAN_CTRL_PROPSEG 0x7 ||| FLEXCAN_CTRL_LPB |||
    FLEXCAN_CTRL_SMP ||| FLEXCAN_CTRL_LOM
  let reg0 := reg_old &&& (0xffffffff ^^^ mask)
  let reg1 := reg0 ||| FLEXCAN_CTRL_PRESDIV (brp - 1) |||
    FLEXCAN_CTRL_PSEG1 (phase_seg1 - 1) |||
    FLEXCAN_CTRL_PSEG2 (phase_seg2 - 1) |||
    FLEXCAN_CTRL_RJW (sjw - 1) |||
    FLEXCAN_CTRL_PROPSEG (prop_seg - 1)
  let reg2 := if loopback then reg1 ||| FLEXCAN_CTRL_LPB else reg1
  let reg3 := if listenonly then reg2 ||| FLEXCAN_CTRL_LOM else reg2
  let reg4 := if three_samples then reg3 ||| FLEXCAN_CTRL_SMP else reg3
  reg4

/-- Extract the PRESDIV field (bits 24-31) from a control-register value. -/
def ctrl_presdiv_field (reg : Nat) : Nat := (reg >>> 24) &&& 0xff

/-- Extract the RJW field (bits 22-23). -/
def ctrl_rjw_field (reg : Nat) : Nat := (reg >>> 22) &&& 0x3

/-- Extract the PSEG1 field (bits 19-21). -/
def ctrl_pseg1_field (reg : Nat) : Nat := (reg >>> 19) &&& 0x7

/-- Extract the PSEG2 field (bits 16-18). -/
def ctrl_pseg2_field (reg : Nat) : Nat := (reg >>> 16) &&& 0x7

/-- Extract the PROPSEG field (bits 0-2). -/
def ctrl_propseg_field (reg : Nat) : Nat := reg &&& 0x7

/--
The timeout initializer of `flexcan_chip_freeze` (flexcan.c line 390):
`1000 * 1000 * 10 / priv->can.bittiming.bitrate` poll iterations.
-/
def flexcan_chip_freeze_timeout (bitrate : Nat) : Nat :=
  1000 * 1000 * 10 / bitrate

/--
The poll loop of `flexcan_chip_freeze`: read the module-control register
(the oracle `read` yields the value of the i-th hardware read) until the
freeze-acknowledge bit shows or the fuel runs out; returns the index of
the next unconsumed read.
-/
def freeze_poll (read : Nat → Nat) : Nat → Nat → Nat
  | i, 0 => i
  | i, fuel + 1 =>
    if read i &&& FLEXCAN_MCR_FRZ_ACK = 0 then freeze_poll read (i + 1) fuel
    else i + 1

/--
`flexcan_chip_freeze` (flexcan.c lines 387-404): read `mcr`, write it back
with the halt bit set, poll for freeze-acknowledge for
`flexcan_chip_freeze_timeout bitrate` iterations, and fail with a timeout
error when the final read still shows the bit clear.  Returns the result
together with the list of `mcr` writes performed.
-/
def flexcan_chip_freeze (read : Nat → Nat) (bitrate : Nat) :
    Except Unit Unit × List Nat :=
  let reg := read 0
  let halted := reg ||| FLEXCAN_MCR_HALT
  let j := freeze_poll read 1 (flexcan_chip_freeze_timeout bitrate)
  if read j &&& FLEXCAN_MCR_FRZ_ACK = 0 then (Except.error (), [halted])
  else (Except.ok (), [halted])

/-- Results of the fallible sub-operations invoked by `flexcan_chip_start`,
supplied by the hardware environment. -/
structure ChipStartEnv where
  enable : Except Nat Unit
  softreset : Except Nat Unit
  transceiver_enable : Except Nat Unit
  unfreeze : Except Nat Unit

/-- The externally visible operations `flexcan_chip_start` performs, in
order. -/
inductive ChipAct where
  | chip_enable
  | chip_softreset
  | set_bittiming
  | transceiver_enable
  | chip_unfreeze
  | transceiver_disable
  | chip_disable
deriving DecidableEq

/-- Result of `flexcan_chip_start`: error status, the ordered operation
trace, and the controller state afterwards. -/
structure ChipStartResult where
  res : Except Nat Unit
  acts : List ChipAct
  state : Nat

/--
`flexcan_chip_start` (flexcan.c lines 1144-1264), at the level of its
fallible sub-operations and unwind paths: enable, soft-reset, apply
bit-timing and the (infallible) MCR/CTRL/mailbox/mask configuration,
enable the transceiver, unfreeze, then set the state to ERROR_ACTIVE.
A soft-reset or transceiver failure unwinds through `out_chip_disable`;
an unfreeze failure through `out_transceiver_disable` and then
`out_chip_disable`; an enable failure returns directly.
-/
def flexcan_chip_start (env : ChipStartEnv) (state0 : Nat) : ChipStartResult :=
  match env.enable with
  | Except.error e =>
    { res := Except.error e, acts := [ChipAct.chip_enable], state := state0 }
  | Except.ok _ =>
    match env.softreset with
    | Except.error e =>
      { res := Except.error e,
        acts := [ChipAct.chip_enable, ChipAct.chip_softreset,
                 ChipAct.chip_disable],
        state := state0 }
    | Except.ok _ =>
      match env.transceiver_enable with
      | Except.error e =>
        { res := Except.error e,
          acts := [ChipAct.chip_enable, ChipAct.chip_softreset,
                   ChipAct.set_bittiming, ChipAct.transceiver_enable,
                   ChipAct.chip_disable],
          state := state0 }
      | Except.ok _ =>
        match env.unfreeze with
        | Except.error e =>
          { res := Except.error e,
            acts := [ChipAct.chip_enable, ChipAct.chip_softreset,
                     ChipAct.set_bittiming, ChipAct.transceiver_enable,
                     ChipAct.chip_unfreeze, ChipAct.transceiver_disable,
                     ChipAct.chip_disable],
            state := state0 }
        | Except.ok _ =>
          { res := Except.ok (),
            acts := [ChipAct.chip_enable, ChipAct.chip_softreset,
                     ChipAct.set_bittiming, ChipAct.transceiver_enable,
                     ChipAct.chip_unfreeze],
            state := CAN_STATE_ERROR_ACTIVE }

/-! ### General bit-manipulation lemmas -/

theorem or_eq_zero_iff_both {a b : Nat} : a ||| b = 0 ↔ a = 0 ∧ b = 0 := by
  constructor
  · intro h
    constructor
    · apply Nat.eq_of_testBit_eq
      intro i
      have hbit := congrArg (fun x => Nat.testBit x i) h
      simp only [Nat.testBit_or, Nat.zero_testBit, Bool.or_eq_false_iff] at hbit
      simpa using hbit.1
    · apply Nat.eq_of_testBit_eq
      intro i
      have hbit := congrArg (fun x => Nat.testBit x i) h
      simp only [Nat.testBit_or, Nat.zero_testBit, Bool.or_eq_false_iff] at hbit
      simpa using hbit.2
  · rintro ⟨rfl, rfl⟩
    simp


theorem or_and_self (a b : Nat) : (a ||| b) &&& b = b := by
  apply Nat.eq_of_testBit_eq
  intro i
  simp only [Nat.testBit_and, Nat.testBit_or]
  cases a.testBit i <;> cases b.testBit i <;> rfl

/-! ### Claim theorems -/

/--
Claim C1: for every 32-bit status-register value, the controller state
derived by `flexcan_poll_state` follows the documented table, as a pure
function of the 2-bit fault-confinement field and the two warning bits:
fault field active with neither warning bit set gives ERROR_ACTIVE; fault
field active with either warning bit set gives ERROR_WARNING; fault field
passive gives ERROR_PASSIVE; any other fault-field value gives BUS_OFF.
The final conjunct is the purity statement: every status value with the
same fault field and warning bits derives the same state, which together
with the four cases covers all fault-field/warning combinations.
-/
theorem flexcan_poll_state_derivation (esr : Nat) :
    (esr &&& FLEXCAN_ESR_FLT_CONF_MASK = FLEXCAN_ESR_FLT_CONF_ACTIVE →
      esr &&& FLEXCAN_ESR_TX_WRN = 0 → esr &&& FLEXCAN_ESR_RX_WRN = 0 →
      flexcan_new_state esr = CAN_STATE_ERROR_ACTIVE) ∧
    (esr &&& FLEXCAN_ESR_FLT_CONF_MASK = FLEXCAN_ESR_FLT_CONF_ACTIVE →
      (esr &&& FLEXCAN_ESR_TX_WRN ≠ 0 ∨ esr &&& FLEXCAN_ESR_RX_WRN ≠ 0) →
      flexcan_new_state esr = CAN_STATE_ERROR_WARNING) ∧
    (esr &&& FLEXCAN_ESR_FLT_CONF_MASK = FLEXCAN_ESR_FLT_CONF_PASSIVE →
      flexcan_new_state esr = CAN_STATE_ERROR_PASSIVE) ∧
    (esr &&& FLEXCAN_ESR_FLT_CONF_MASK ≠ FLEXCAN_ESR_FLT_CONF_ACTIVE →
      esr &&& FLEXCAN_ESR_FLT_CONF_MASK ≠ FLEXCAN_ESR_FLT_CONF_PASSIVE →
      flexcan_new_state esr = CAN_STATE_BUS_OFF) ∧
    (∀ esr2 : Nat,
      esr2 &&& FLEXCAN_ESR_FLT_CONF_MASK = esr &&& FLEXCAN_ESR_FLT_CONF_MASK →
      esr2 &&& FLEXCAN_ESR_TX_WRN = esr &&& FLEXCAN_ESR_TX_WRN →
      esr2 &&& FLEXCAN_ESR_RX_WRN = esr &&& FLEXCAN_ESR_RX_WRN →
      flexcan_new_state esr2 = flexcan_new_state esr) := by
  refine ⟨?_, ?_, ?_, ?_, ?_⟩
  · intro hflt htx hrx
    simp [flexcan_new_state, Nat.and_or_distrib_left, hflt, htx, hrx]
  · intro hflt hwrn
    have hne : esr &&& (FLEXCAN_ESR_TX_WRN ||| FLEXCAN_ESR_RX_WRN) ≠ 0 := by
      intro hc
      rw [Nat.and_or_distrib_left] at hc
      rcases or_eq_zero_iff_both.mp hc with ⟨h1, h2⟩
      rcases hwrn with h | h
      · exact h h1
      · exact h h2
    simp [flexcan_new_state, hflt, hne]
  · intro hflt
    simp [flexcan_new_state, hflt, FLEXCAN_ESR_FLT_CONF_ACTIVE,
      FLEXCAN_ESR_FLT_CONF_PASSIVE, FLEXCAN_EST_FLT_CONF_SHIFT]
  · intro hna hnp
    simp [flexcan_new_state, hna, hnp]
  · intro esr2 hflt htx hrx
    have hwrn : esr2 &&& (FLEXCAN_ESR_TX_WRN ||| FLEXCAN_ESR_RX_WRN) =
        esr &&& (FLEXCAN_ESR_TX_WRN ||| FLEXCAN_ESR_RX_WRN) := by
      rw [Nat.and_or_distrib_left, Nat.and_or_distrib_left, htx, hrx]
    simp only [flexcan_new_state, hflt, hwrn]

/-- Concrete instance of the C1 theorem at status value 0. -/
theorem flexcan_poll_state_derivation_witness :
    flexcan_new_state 0 = CAN_STATE_ERROR_ACTIVE :=
  (flexcan_poll_state_derivation 0).1 (by decide) (by decide) (by decide)

/--
Claim C2: when the derived state is BUS_OFF and the recorded state is not
BUS_OFF, `flexcan_poll_state` produces exactly one `can_bus_off` link-down
signal and exactly one diagnostic frame carrying the bus-off bit; when the
recorded state is already BUS_OFF, the derived BUS_OFF produces zero
link-down signals and zero frames.
-/
theorem flexcan_poll_state_bus_off_once (priv_state reg_esr txerr rxerr : Nat) :
    (flexcan_new_state reg_esr = CAN_STATE_BUS_OFF →
      priv_state ≠ CAN_STATE_BUS_OFF →
      (flexcan_poll_state priv_state reg_esr txerr rxerr).bus_off_calls = 1 ∧
      (flexcan_poll_state priv_state reg_esr txerr rxerr).frames.length = 1 ∧
      ∀ f ∈ (flexcan_poll_state priv_state reg_esr txerr rxerr).frames,
        f.can_id &&& CAN_ERR_BUSOFF = CAN_ERR_BUSOFF) ∧
    (flexcan_new_state reg_esr = CAN_STATE_BUS_OFF →
      priv_state = CAN_STATE_BUS_OFF →
      (flexcan_poll_state priv_state reg_esr txerr rxerr).bus_off_calls = 0 ∧
      (flexcan_poll_state priv_state reg_esr txerr rxerr).frames = []) := by
  constructor
  · intro hnew hne
    have hcond : ¬ (CAN_STATE_BUS_OFF = priv_state) := fun hc => hne hc.symm
    have hbusoff : ∀ cf : ErrFrame,
        (do_state priv_state txerr rxerr CAN_STATE_BUS_OFF cf).bus_off_calls = 1 ∧
        (do_state priv_state txerr rxerr CAN_STATE_BUS_OFF cf).frame.can_id &&&
          CAN_ERR_BUSOFF = CAN_ERR_BUSOFF := by
      intro cf
      constructor
      · simp [do_state]
      · simp only [do_state]
        split_ifs <;> simp_all [CAN_STATE_BUS_OFF, CAN_STATE_ERROR_ACTIVE, or_and_self]
    simp only [flexcan_poll_state, hnew, if_neg hcond]
    refine ⟨(hbusoff _).1, rfl, ?_⟩
    intro f hf
    have hf1 : f = (do_state priv_state txerr rxerr CAN_STATE_BUS_OFF
        alloc_can_err_frame).frame := by
      simpa using hf
    rw [hf1]
    exact (hbusoff _).2
  · intro hnew hprev
    have hcond : flexcan_new_state reg_esr = priv_state := by rw [hnew, hprev]
    simp [flexcan_poll_state, hcond]

/-- Concrete instance of the C2 theorem: recorded state ERROR_ACTIVE,
status register showing the bus-off fault-confinement value. -/
theorem flexcan_poll_state_bus_off_once_witness :
    (flexcan_poll_state CAN_STATE_ERROR_ACTIVE 0x20 0 0).bus_off_calls = 1 ∧
    (flexcan_poll_state CAN_STATE_ERROR_ACTIVE 0x20 0 0).frames.length = 1 :=
  have h := (flexcan_poll_state_bus_off_once CAN_STATE_ERROR_ACTIVE 0x20 0 0).1
    (by decide) (by decide)
  ⟨h.1, h.2.1⟩

/--
Claim C10: whenever `do_state` synthesizes a warning or passive diagnostic
frame starting from a freshly allocated error frame, equal transmit and
receive error counters blame the receive side, and the transmit side is
blamed only when the transmit counter is strictly larger.
-/
theorem do_state_equal_counters_blame_rx (priv_state new_state txerr rxerr : Nat) :
    (txerr = rxerr →
      (do_state priv_state txerr rxerr new_state alloc_can_err_frame).frame.data1 ≠
        CAN_ERR_CRTL_TX_WARNING ∧
      (do_state priv_state txerr rxerr new_state alloc_can_err_frame).frame.data1 ≠
        CAN_ERR_CRTL_TX_PASSIVE) ∧
    ((do_state priv_state txerr rxerr new_state alloc_can_err_frame).frame.data1 =
        CAN_ERR_CRTL_TX_WARNING ∨
      (do_state priv_state txerr rxerr new_state alloc_can_err_frame).frame.data1 =
        CAN_ERR_CRTL_TX_PASSIVE →
      txerr > rxerr) ∧
    (txerr = rxerr → priv_state = CAN_STATE_ERROR_ACTIVE →
      new_state = CAN_STATE_ERROR_WARNING →
      (do_state priv_state txerr rxerr new_state alloc_can_err_frame).frame.data1 =
        CAN_ERR_CRTL_RX_WARNING) ∧
    (txerr = rxerr →
      (priv_state = CAN_STATE_ERROR_ACTIVE ∨ priv_state = CAN_STATE_ERROR_WARNING) →
      CAN_STATE_ERROR_PASSIVE ≤ new_state → new_state ≤ CAN_STATE_BUS_OFF →
      (do_state priv_state txerr rxerr new_state alloc_can_err_frame).frame.data1 =
        CAN_ERR_CRTL_RX_PASSIVE) := by
  refine ⟨?_, ?_, ?_, ?_⟩
  · intro heq
    simp only [do_state, alloc_can_err_frame]
    split_ifs <;>
      simp_all [CAN_ERR_CRTL_TX_WARNING, CAN_ERR_CRTL_TX_PASSIVE,
        CAN_ERR_CRTL_RX_WARNING, CAN_ERR_CRTL_RX_PASSIVE]
  · intro hdata
    by_contra hle
    simp only [do_state, alloc_can_err_frame] at hdata
    split_ifs at hdata <;>
      simp_all [CAN_ERR_CRTL_TX_WARNING, CAN_ERR_CRTL_TX_PASSIVE,
        CAN_ERR_CRTL_RX_WARNING, CAN_ERR_CRTL_RX_PASSIVE]
  · intro heq hprev hnew
    simp only [do_state, alloc_can_err_frame]
    split_ifs <;>
      simp_all [CAN_STATE_ERROR_ACTIVE, CAN_STATE_ERROR_WARNING,
        CAN_STATE_ERROR_PASSIVE, CAN_STATE_BUS_OFF]
  · intro heq hprev hlo hhi
    simp only [do_state, alloc_can_err_frame]
    split_ifs <;>
      simp_all [CAN_STATE_ERROR_ACTIVE, CAN_STATE_ERROR_WARNING,
        CAN_STATE_ERROR_PASSIVE, CAN_STATE_BUS_OFF]

/-- Concrete instance of the C10 theorem: ERROR_ACTIVE to ERROR_WARNING
with both error counters equal to 96 blames the receive side. -/
theorem do_state_equal_counters_blame_rx_witness :
    (do_state CAN_STATE_ERROR_ACTIVE 96 96 CAN_STATE_ERROR_WARNING
      alloc_can_err_frame).frame.data1 = CAN_ERR_CRTL_RX_WARNING :=
  (do_state_equal_counters_blame_rx CAN_STATE_ERROR_ACTIVE
      CAN_STATE_ERROR_WARNING 96 96).2.2.1 rfl rfl rfl

/-! ### C4: receive-queue depth computation -/

theorem fls_go_spec (x : Nat) :
    ∀ n, 0 < x → x < 2 ^ n →
      2 ^ (fls_go x n - 1) ≤ x ∧ x < 2 ^ fls_go x n ∧ 0 < fls_go x n := by
  intro n
  induction n with
  | zero =>
    intro hx hlt
    simp at hlt
    omega
  | succ n ih =>
    intro hx hlt
    simp only [fls_go]
    by_cases hs : x >>> n ≠ 0
    · rw [if_pos hs]
      have hge : 2 ^ n ≤ x := by
        rw [Nat.shiftRight_eq_div_pow] at hs
        by_contra hcon
        exact hs (Nat.div_eq_of_lt (by omega))
      refine ⟨by simpa using hge, hlt, by omega⟩
    · rw [if_neg hs]
      have hz : x >>> n = 0 := by
        by_contra hcon
        exact hs hcon
      have hlt' : x < 2 ^ n := by
        rw [Nat.shiftRight_eq_div_pow] at hz
        by_contra hcon
        have h1 : 1 ≤ x / 2 ^ n :=
          (Nat.one_le_div_iff (Nat.two_pow_pos n)).mpr (by omega)
        omega
      exact ih hx hlt'

/--
Claim C4 (amended): the queue depth computed by
`can_rx_offload_init_queue` equals eight times the smallest power of two
strictly greater than the polling weight, namely `(2 << fls(weight)) * 4`;
for the driver's weight of 10 this is 128 (not 64).
-/
theorem can_rx_offload_queue_len_max_spec (weight : Nat) (h1 : 0 < weight)
    (h2 : weight < 2 ^ 32) :
    can_rx_offload_queue_len_max weight = 8 * 2 ^ fls weight ∧
    weight < 2 ^ fls weight ∧
    2 ^ fls weight ≤ 2 * weight ∧
    can_rx_offload_queue_len_max FLEXCAN_NAPI_WEIGHT = 128 := by
  obtain ⟨hle, hlt, hpos⟩ := fls_go_spec weight 32 h1 h2
  have heq : fls weight = fls_go weight 32 := rfl
  rw [← heq] at hle hlt hpos
  refine ⟨?_, hlt, ?_, by decide⟩
  · show (2 <<< fls weight) * 4 = 8 * 2 ^ fls weight
    rw [Nat.shiftLeft_eq]
    ring
  · have hdouble : 2 ^ fls weight = 2 * 2 ^ (fls weight - 1) := by
      conv_lhs => rw [show fls weight = (fls weight - 1) + 1 by omega]
      rw [pow_succ]
      ring
    omega

/-- Concrete instance of the amended C4 theorem at the driver's weight. -/
theorem can_rx_offload_queue_len_max_spec_witness :
    can_rx_offload_queue_len_max 10 = 8 * 2 ^ fls 10 ∧
    10 < 2 ^ fls 10 ∧ 2 ^ fls 10 ≤ 2 * 10 ∧
    can_rx_offload_queue_len_max FLEXCAN_NAPI_WEIGHT = 128 :=
  can_rx_offload_queue_len_max_spec 10 (by decide) (by decide)

/--
Claim C4 counterexample: for the driver's polling weight of 10, the
computed maximum queue depth is 128, not 64 = four times the weight
rounded up to the next power of two (4 * 16).
-/
theorem can_rx_offload_queue_len_max_cex :
    can_rx_offload_queue_len_max FLEXCAN_NAPI_WEIGHT = 128 ∧
    can_rx_offload_queue_len_max FLEXCAN_NAPI_WEIGHT ≠ 4 * 16 := by
  decide

/-! ### C3: receive-queue bound during interrupt-time draining -/

/--
The structural drain loop coincides with iterating
`can_rx_offload_offload_one` exactly as the C `while` loop does: stop at
the first read that produces no skb, otherwise queue the frame and
continue.
-/
theorem can_rx_offload_irq_offload_fifo_step (st : OffloadState) :
    can_rx_offload_irq_offload_fifo st =
      match can_rx_offload_offload_one st with
      | (none, st1) => (st1, 0)
      | (some skb, st1) =>
        let r := can_rx_offload_irq_offload_fifo
          { st1 with skb_queue := st1.skb_queue ++ [skb] }
        (r.1, r.2 + 1) := by
  rcases hf : st.fifo with _ | ⟨mb, rest⟩
  · simp [can_rx_offload_irq_offload_fifo, irq_offload_fifo_go, hf,
      can_rx_offload_offload_one, flexcan_mailbox_read]
  · by_cases hd : st.skb_queue.length > st.skb_queue_len_max
    · simp [can_rx_offload_irq_offload_fifo, irq_offload_fifo_go, hf, hd,
        can_rx_offload_offload_one, flexcan_mailbox_read]
    · simp [can_rx_offload_irq_offload_fifo, irq_offload_fifo_go, hf, hd,
        can_rx_offload_offload_one, flexcan_mailbox_read]

theorem irq_offload_fifo_go_bound (fifo : List RawMB) :
    ∀ st : OffloadState,
      st.skb_queue.length ≤ st.skb_queue_len_max + 1 →
      (irq_offload_fifo_go fifo st).1.skb_queue.length ≤
        st.skb_queue_len_max + 1 := by
  induction fifo with
  | nil =>
    intro st h
    simpa [irq_offload_fifo_go] using h
  | cons mb rest ih =>
    intro st h
    simp only [irq_offload_fifo_go]
    by_cases hd : st.skb_queue.length > st.skb_queue_len_max
    · rw [if_pos hd]
      simpa using h
    · rw [if_neg hd]
      have hstep := ih
        { st with
          fifo := rest, acks := st.acks + 1,
          skb_queue := st.skb_queue ++ [flexcan_mb_decode mb] }
        (by simp; omega)
      simpa using hstep

/--
Claim C3 (amended): during interrupt-time draining the receive queue
length never exceeds `skb_queue_len_max + 1`.  A frame is discarded
exactly when the queue length already exceeds `skb_queue_len_max`: the
drop counter then increments and the hardware acknowledge is still
performed while the queue is left unchanged.  From the saturated length
`skb_queue_len_max + 1`, draining one frame (length back to the
configured maximum) lets exactly one further frame be accepted.
-/
theorem can_rx_offload_queue_invariant (st : OffloadState) :
    (st.skb_queue.length ≤ st.skb_queue_len_max + 1 →
      (can_rx_offload_irq_offload_fifo st).1.skb_queue.length ≤
        st.skb_queue_len_max + 1) ∧
    (∀ mb rest, st.fifo = mb :: rest →
      st.skb_queue.length = st.skb_queue_len_max + 1 →
      (can_rx_offload_irq_offload_fifo st).1.skb_queue = st.skb_queue ∧
      (can_rx_offload_irq_offload_fifo st).1.rx_dropped = st.rx_dropped + 1 ∧
      (can_rx_offload_irq_offload_fifo st).1.acks = st.acks + 1 ∧
      (can_rx_offload_irq_offload_fifo st).2 = 0) ∧
    (∀ mb1 mb2 rest2, st.fifo = mb1 :: mb2 :: rest2 →
      st.skb_queue.length = st.skb_queue_len_max →
      (can_rx_offload_irq_offload_fifo st).1.skb_queue =
        st.skb_queue ++ [flexcan_mb_decode mb1] ∧
      (can_rx_offload_irq_offload_fifo st).1.rx_dropped = st.rx_dropped + 1 ∧
      (can_rx_offload_irq_offload_fifo st).2 = 1) := by
  refine ⟨?_, ?_, ?_⟩
  · intro h
    exact irq_offload_fifo_go_bound st.fifo st h
  · intro mb rest hf h
    have hd : st.skb_queue.length > st.skb_queue_len_max := by omega
    simp [can_rx_offload_irq_offload_fifo, irq_offload_fifo_go, hf, hd]
  · intro mb1 mb2 rest2 hf h
    have hd : ¬ (st.skb_queue.length > st.skb_queue_len_max) := by omega
    have hd2 : st.skb_queue.length + 1 > st.skb_queue_len_max := by omega
    simp [can_rx_offload_irq_offload_fifo, irq_offload_fifo_go, hf, hd, hd2]

/-- Concrete instance of the amended C3 theorem: maximum 0, two pending
frames, starting from the empty queue. -/
theorem can_rx_offload_queue_invariant_witness :
    (can_rx_offload_irq_offload_fifo
      { skb_queue := [], skb_queue_len_max := 0, rx_dropped := 0,
        fifo := [{ can_ctrl := 0, can_id := 0, data0 := 0, data1 := 0 },
                 { can_ctrl := 0, can_id := 0, data0 := 0, data1 := 0 }],
        acks := 0 }).1.skb_queue.length ≤ 0 + 1 :=
  (can_rx_offload_queue_invariant
    { skb_queue := [], skb_queue_len_max := 0, rx_dropped := 0,
      fifo := [{ can_ctrl := 0, can_id := 0, data0 := 0, data1 := 0 },
               { can_ctrl := 0, can_id := 0, data0 := 0, data1 := 0 }],
      acks := 0 }).1 (by decide)

/--
Claim C3 counterexample: with the driver's configured maximum depth of
128, draining a FIFO of 130 frames into an initially empty queue leaves
129 frames queued, exceeding `skb_queue_len_max`; the frame arriving at a
full queue (length exactly 128) is accepted, not discarded.
-/
theorem can_rx_offload_queue_bound_cex :
    (can_rx_offload_irq_offload_fifo
      { skb_queue := [],
        skb_queue_len_max := can_rx_offload_queue_len_max FLEXCAN_NAPI_WEIGHT,
        rx_dropped := 0,
        fifo := List.replicate 130
          { can_ctrl := 0, can_id := 0, data0 := 0, data1 := 0 },
        acks := 0 }).1.skb_queue.length = 129 ∧
    129 > can_rx_offload_queue_len_max FLEXCAN_NAPI_WEIGHT := by
  decide

/-! ### C5: return value of the interrupt dispatcher -/

/--
Claim C5 (code evaluation): `flexcan_napi_irq` returns the constant
`IRQ_HANDLED` for every input; its local `handled` variable does end up
`IRQ_HANDLED` exactly when a recognized condition (FIFO-available, FIFO
overflow, transmit complete, or a status-register event bit) is present,
but that variable is discarded by the final `return IRQ_HANDLED`.  In
particular, with no flag set and no status event (`reg_iflag1 = 0`,
`reg_esr = 0`), no condition is recognized yet the function still
returns `IRQ_HANDLED`.
-/
theorem flexcan_napi_irq_code_bug :
    (∀ reg_iflag1 reg_esr st stats,
      (flexcan_napi_irq reg_iflag1 reg_esr st stats).1 = IRQ_HANDLED) ∧
    (∀ reg_iflag1 reg_esr st stats,
      ((flexcan_napi_irq reg_iflag1 reg_esr st stats).2.1 = IRQ_HANDLED ↔
        flexcan_irq_condition reg_iflag1 reg_esr)) ∧
    (flexcan_irq_condition 0 0 ↔ False) ∧
    (flexcan_napi_irq 0 0
      { skb_queue := [], skb_queue_len_max := 0, rx_dropped := 0,
        fifo := [], acks := 0 }
      { rx_over_errors := 0, rx_errors := 0, tx_packets := 0,
        esr_ack_writes := 0 }).1 = IRQ_HANDLED := by
  refine ⟨fun _ _ _ _ => rfl, ?_, by simp [flexcan_irq_condition], rfl⟩
  intro i e st stats
  by_cases h1 : i &&& FLEXCAN_IFLAG_RX_FIFO_AVAILABLE ≠ 0 <;>
  by_cases h2 : i &&& FLEXCAN_IFLAG_RX_FIFO_OVERFLOW ≠ 0 <;>
  by_cases h3 : i &&& (1 <<< FLEXCAN_TX_BUF_ID) ≠ 0 <;>
  by_cases h4 : e &&& FLEXCAN_ESR_ALL_INT ≠ 0 <;>
  simp [flexcan_napi_irq, flexcan_irq_condition, h1, h2, h3, h4,
    IRQ_HANDLED, IRQ_NONE]

/-! ### C8: freeze timeout behavior -/

/--
Claim C8: if the freeze-acknowledge bit never shows during polling,
`flexcan_chip_freeze` fails with a timeout error; its poll budget is
`10^7 / bitrate` iterations, ten bit-periods expressed in microseconds
and antitone in the bit rate; the one register write performed sets the
halt bit and is never rolled back.
-/
theorem flexcan_chip_freeze_timeout_spec (read : Nat → Nat) (bitrate : Nat)
    (hack : ∀ i, read i &&& FLEXCAN_MCR_FRZ_ACK = 0) :
    (flexcan_chip_freeze read bitrate).1 = Except.error () ∧
    (flexcan_chip_freeze read bitrate).2 = [read 0 ||| FLEXCAN_MCR_HALT] ∧
    (read 0 ||| FLEXCAN_MCR_HALT) &&& FLEXCAN_MCR_HALT = FLEXCAN_MCR_HALT ∧
    flexcan_chip_freeze_timeout bitrate = 10 * 1000 * 1000 / bitrate ∧
    (∀ b1 b2, 0 < b1 → b1 ≤ b2 →
      flexcan_chip_freeze_timeout b2 ≤ flexcan_chip_freeze_timeout b1) := by
  refine ⟨?_, ?_, or_and_self _ _, by norm_num [flexcan_chip_freeze_timeout], ?_⟩
  · simp [flexcan_chip_freeze, hack]
  · simp [flexcan_chip_freeze, hack]
  · intro b1 b2 hb1 hb12
    exact Nat.div_le_div_left hb12 hb1

/-- Concrete instance of the C8 theorem: an oracle that never raises the
freeze-acknowledge bit, at 500 kbit/s. -/
theorem flexcan_chip_freeze_timeout_spec_witness :
    (flexcan_chip_freeze (fun _ => 0) 500000).1 = Except.error () :=
  (flexcan_chip_freeze_timeout_spec (fun _ => 0) 500000 (fun _ => by simp)).1

/-! ### C9: chip-start unwinding -/

/--
Claim C9: at each failure point of the `flexcan_chip_start` sequence
(soft-reset, transceiver enable, unfreeze), the function disables the
transceiver when it had been enabled, disables the chip, and propagates
the error, never leaving the controller partially enabled; on success it
sets the controller state to ERROR_ACTIVE.
-/
theorem flexcan_chip_start_unwinds (env : ChipStartEnv) (state0 : Nat) :
    (∀ e, env.enable = Except.ok () → env.softreset = Except.error e →
      (flexcan_chip_start env state0).res = Except.error e ∧
      ChipAct.chip_disable ∈ (flexcan_chip_start env state0).acts ∧
      ChipAct.transceiver_enable ∉ (flexcan_chip_start env state0).acts ∧
      ChipAct.transceiver_disable ∉ (flexcan_chip_start env state0).acts) ∧
    (∀ e, env.enable = Except.ok () → env.softreset = Except.ok () →
      env.transceiver_enable = Except.error e →
      (flexcan_chip_start env state0).res = Except.error e ∧
      ChipAct.chip_disable ∈ (flexcan_chip_start env state0).acts ∧
      ChipAct.transceiver_disable ∉ (flexcan_chip_start env state0).acts) ∧
    (∀ e, env.enable = Except.ok () → env.softreset = Except.ok () →
      env.transceiver_enable = Except.ok () →
      env.unfreeze = Except.error e →
      (flexcan_chip_start env state0).res = Except.error e ∧
      ChipAct.transceiver_disable ∈ (flexcan_chip_start env state0).acts ∧
      ChipAct.chip_disable ∈ (flexcan_chip_start env state0).acts) ∧
    (env.enable = Except.ok () → env.softreset = Except.ok () →
      env.transceiver_enable = Except.ok () → env.unfreeze = Except.ok () →
      (flexcan_chip_start env state0).res = Except.ok () ∧
      (flexcan_chip_start env state0).state = CAN_STATE_ERROR_ACTIVE ∧
      ChipAct.transceiver_disable ∉ (flexcan_chip_start env state0).acts ∧
      ChipAct.chip_disable ∉ (flexcan_chip_start env state0).acts) := by
  refine ⟨?_, ?_, ?_, ?_⟩
  · intro e h1 h2
    simp [flexcan_chip_start, h1, h2]
  · intro e h1 h2 h3
    simp [flexcan_chip_start, h1, h2, h3]
  · intro e h1 h2 h3 h4
    simp [flexcan_chip_start, h1, h2, h3, h4]
  · intro h1 h2 h3 h4
    simp [flexcan_chip_start, h1, h2, h3, h4]

/-- Concrete instance of the C9 theorem: the all-success environment
starting from STOPPED ends in ERROR_ACTIVE with no unwinding action. -/
theorem flexcan_chip_start_unwinds_witness :
    (flexcan_chip_start
      { enable := Except.ok (), softreset := Except.ok (),
        transceiver_enable := Except.ok (), unfreeze := Except.ok () }
      CAN_STATE_STOPPED).res = Except.ok () ∧
    (flexcan_chip_start
      { enable := Except.ok (), softreset := Except.ok (),
        transceiver_enable := Except.ok (), unfreeze := Except.ok () }
      CAN_STATE_STOPPED).state = CAN_STATE_ERROR_ACTIVE :=
  have h := (flexcan_chip_start_unwinds
    { enable := Except.ok (), softreset := Except.ok (),
      transceiver_enable := Except.ok (), unfreeze := Except.ok () }
    CAN_STATE_STOPPED).2.2.2 rfl rfl rfl rfl
  ⟨h.1, h.2.1⟩

/-! ### Field-extraction lemmas for packed registers -/

theorem shiftRight_or_distrib (a b n : Nat) :
    (a ||| b) >>> n = (a >>> n) ||| (b >>> n) := by
  apply Nat.eq_of_testBit_eq
  intro i
  simp [Nat.testBit_shiftRight, Nat.testBit_or]

/-- A value living below the extraction window contributes nothing. -/
theorem below_window_extract {c : Nat} (p m : Nat) (h : c < 2 ^ p) :
    (c >>> p) &&& m = 0 := by
  rw [Nat.shiftRight_eq_div_pow, Nat.div_eq_of_lt h, Nat.zero_and]

/-- A field shifted entirely above the extraction window contributes
nothing. -/
theorem above_window_extract (v : Nat) {q p w : Nat} (h : p + w ≤ q) :
    ((v <<< q) >>> p) &&& (2 ^ w - 1) = 0 := by
  rw [Nat.shiftLeft_eq, Nat.shiftRight_eq_div_pow,
    Nat.and_pow_two_sub_one_eq_mod]
  have hq : (2 : Nat) ^ q = 2 ^ (q - p) * 2 ^ p := by
    rw [← pow_add]
    congr 1
    omega
  rw [hq, ← Nat.mul_assoc, Nat.mul_div_cancel _ (Nat.two_pow_pos p)]
  have hw : (2 : Nat) ^ (q - p) = 2 ^ (q - p - w) * 2 ^ w := by
    rw [← pow_add]
    congr 1
    omega
  rw [hw, ← Nat.mul_assoc, Nat.mul_mod_left]

/-- Extracting a field from its own window recovers the masked value. -/
theorem match_window_extract (v p w : Nat) :
    (((v &&& (2 ^ w - 1)) <<< p) >>> p) &&& (2 ^ w - 1) = v &&& (2 ^ w - 1) := by
  rw [Nat.shiftLeft_eq, Nat.shiftRight_eq_div_pow,
    Nat.mul_div_cancel _ (Nat.two_pow_pos p), Nat.and_assoc, Nat.and_self]

theorem shiftLeft_lt_of_lt {v w : Nat} (q : Nat) (h : v < 2 ^ w) :
    v <<< q < 2 ^ (w + q) := by
  rw [Nat.shiftLeft_eq, pow_add]
  exact Nat.mul_lt_mul_of_pos_right h (Nat.two_pow_pos q)

/-- A field shifted above the low bits contributes nothing to them. -/
theorem shiftLeft_and_low_zero (v : Nat) {q w : Nat} (h : w ≤ q) :
    (v <<< q) &&& (2 ^ w - 1) = 0 := by
  have h0 := above_window_extract v (p := 0) (q := q) (w := w) (by omega)
  simpa using h0

/-- Peel a zero-contribution left operand off an extraction. -/
theorem extract_or_zero_left {a m p : Nat} (b : Nat)
    (ha : (a >>> p) &&& m = 0) :
    ((a ||| b) >>> p) &&& m = (b >>> p) &&& m := by
  rw [shiftRight_or_distrib, Nat.and_distrib_right, ha, Nat.zero_or]

/-- Peel a zero-contribution right operand off an extraction. -/
theorem extract_or_zero_right {b m p : Nat} (a : Nat)
    (hb : (b >>> p) &&& m = 0) :
    ((a ||| b) >>> p) &&& m = (a >>> p) &&& m := by
  rw [shiftRight_or_distrib, Nat.and_distrib_right, hb, Nat.or_zero]

theorem and_or_zero_left {a m : Nat} (b : Nat) (ha : a &&& m = 0) :
    (a ||| b) &&& m = b &&& m := by
  rw [Nat.and_distrib_right, ha, Nat.zero_or]

theorem and_or_zero_right {b m : Nat} (a : Nat) (hb : b &&& m = 0) :
    (a ||| b) &&& m = a &&& m := by
  rw [Nat.and_distrib_right, hb, Nat.or_zero]

theorem be32_unpack_pack (b0 b1 b2 b3 : Nat) (h0 : b0 < 256) (h1 : b1 < 256)
    (h2 : b2 < 256) (h3 : b3 < 256) :
    be32_unpack (be32_pack b0 b1 b2 b3) = [b0, b1, b2, b3] := by
  simp only [be32_pack, be32_unpack, List.cons.injEq, and_true]
  refine ⟨?_, ?_, ?_, ?_⟩ <;> omega

/-! ### C6: transmit-encode / receive-decode round trip -/

/-- The transmit encoding of an extended 8-byte non-RTR frame, computed
explicitly: code 0xc, length 8, IDE and SRR set, RTR clear. -/
theorem flexcan_start_xmit_mb_ext8 (id b0 b1 b2 b3 b4 b5 b6 b7 : Nat)
    (hid : id < 2 ^ 29) :
    flexcan_start_xmit_mb
      { can_id := CAN_EFF_FLAG ||| id, can_dlc := 8,
        data := [b0, b1, b2, b3, b4, b5, b6, b7] } =
      { can_ctrl := 0x0c680000, can_id := id,
        data0 := be32_pack b0 b1 b2 b3,
        data1 := be32_pack b4 b5 b6 b7 } := by
  have hEFF : (CAN_EFF_FLAG ||| id) &&& CAN_EFF_FLAG = CAN_EFF_FLAG := by
    rw [Nat.or_comm]
    exact or_and_self id CAN_EFF_FLAG
  have hRTR : (CAN_EFF_FLAG ||| id) &&& CAN_RTR_FLAG = 0 := by
    rw [Nat.and_distrib_right]
    have ha : CAN_EFF_FLAG &&& CAN_RTR_FLAG = 0 := by decide
    have hb : id &&& CAN_RTR_FLAG = 0 := by
      rw [show CAN_RTR_FLAG = 2 ^ 30 from by norm_num [CAN_RTR_FLAG],
        Nat.and_two_pow]
      have hbit : id.testBit 30 = false :=
        Nat.testBit_lt_two_pow (lt_of_lt_of_le hid (by norm_num))
      simp [hbit]
    rw [ha, hb]
    decide
  have hid2 : id &&& CAN_EFF_MASK = id := by
    rw [show CAN_EFF_MASK = 2 ^ 29 - 1 from by norm_num [CAN_EFF_MASK]]
    exact Nat.and_pow_two_sub_one_of_lt_two_pow hid
  have hidmask : (CAN_EFF_FLAG ||| id) &&& CAN_EFF_MASK = id := by
    rw [Nat.and_distrib_right]
    have ha : CAN_EFF_FLAG &&& CAN_EFF_MASK = 0 := by decide
    rw [ha, hid2, Nat.zero_or]
  have hEFFne : CAN_EFF_FLAG ≠ 0 := by decide
  simp only [flexcan_start_xmit_mb, hEFF, hRTR, hidmask, hEFFne, ne_eq,
    List.getD]
  norm_num
  decide

/-- The receive decoding of the 8-byte extended transmit image recovers
the original identifier, flags, length code and payload. -/
theorem flexcan_mb_decode_ext8 (id b0 b1 b2 b3 b4 b5 b6 b7 : Nat)
    (hid : id < 2 ^ 29)
    (h0 : b0 < 256) (h1 : b1 < 256) (h2 : b2 < 256) (h3 : b3 < 256)
    (h4 : b4 < 256) (h5 : b5 < 256) (h6 : b6 < 256) (h7 : b7 < 256) :
    flexcan_mb_decode
      { can_ctrl := 0x0c680000, can_id := id,
        data0 := be32_pack b0 b1 b2 b3,
        data1 := be32_pack b4 b5 b6 b7 } =
      { can_id := CAN_EFF_FLAG ||| id, can_dlc := 8,
        data := [b0, b1, b2, b3, b4, b5, b6, b7] } := by
  have hid2 : id &&& CAN_EFF_MASK = id := by
    rw [show CAN_EFF_MASK = 2 ^ 29 - 1 from by norm_num [CAN_EFF_MASK]]
    exact Nat.and_pow_two_sub_one_of_lt_two_pow hid
  have hcIDE : (0x0c680000 : Nat) &&& FLEXCAN_MB_CNT_IDE ≠ 0 := by decide
  have hcRTR : (0x0c680000 : Nat) &&& FLEXCAN_MB_CNT_RTR = 0 := by decide
  have hdlc : get_can_dlc (((0x0c680000 : Nat) >>> 16) &&& 0xf) = 8 := by
    decide
  simp only [flexcan_mb_decode, hcIDE, hcRTR, hdlc, ne_eq,
    Nat.shiftRight_zero, hid2, Nat.or_comm id CAN_EFF_FLAG,
    be32_unpack_pack b0 b1 b2 b3 h0 h1 h2 h3,
    be32_unpack_pack b4 b5 b6 b7 h4 h5 h6 h7]
  norm_num

/--
Claim C6: an extended-format frame with 8 payload bytes and the
remote-request flag cleared, written into the transmit mailbox by the
`flexcan_start_xmit` encoding and read back through the
`flexcan_mailbox_read` decoding, comes back with the identical 29-bit
identifier, extended flag, cleared remote flag, length code and payload.
-/
theorem flexcan_frame_roundtrip (id b0 b1 b2 b3 b4 b5 b6 b7 : Nat)
    (hid : id < 2 ^ 29)
    (h0 : b0 < 256) (h1 : b1 < 256) (h2 : b2 < 256) (h3 : b3 < 256)
    (h4 : b4 < 256) (h5 : b5 < 256) (h6 : b6 < 256) (h7 : b7 < 256) :
    flexcan_mb_decode (flexcan_start_xmit_mb
      { can_id := CAN_EFF_FLAG ||| id, can_dlc := 8,
        data := [b0, b1, b2, b3, b4, b5, b6, b7] }) =
      { can_id := CAN_EFF_FLAG ||| id, can_dlc := 8,
        data := [b0, b1, b2, b3, b4, b5, b6, b7] } := by
  rw [flexcan_start_xmit_mb_ext8 id b0 b1 b2 b3 b4 b5 b6 b7 hid]
  exact flexcan_mb_decode_ext8 id b0 b1 b2 b3 b4 b5 b6 b7 hid
    h0 h1 h2 h3 h4 h5 h6 h7

/-- Concrete instance of the C6 theorem: identifier 0x12345678, payload
bytes 1 through 8. -/
theorem flexcan_frame_roundtrip_witness :
    flexcan_mb_decode (flexcan_start_xmit_mb
      { can_id := CAN_EFF_FLAG ||| 0x12345678, can_dlc := 8,
        data := [1, 2, 3, 4, 5, 6, 7, 8] }) =
      { can_id := CAN_EFF_FLAG ||| 0x12345678, can_dlc := 8,
        data := [1, 2, 3, 4, 5, 6, 7, 8] } :=
  flexcan_frame_roundtrip 0x12345678 1 2 3 4 5 6 7 8 (by norm_num)
    (by norm_num) (by norm_num) (by norm_num) (by norm_num)
    (by norm_num) (by norm_num) (by norm_num) (by norm_num)

/-! ### C7: bit-timing register round trip -/

theorem and_lt_two_pow_mask (x : Nat) {m w : Nat} (h : m < 2 ^ w) :
    x &&& m < 2 ^ w :=
  lt_of_le_of_lt Nat.and_le_right h

/-- A shifted field that sits above the window, with an arithmetic side
condition instead of a syntactic mask shape. -/
theorem field_below {v p q w : Nat} (m : Nat) (hv : v < 2 ^ w)
    (h : w + q ≤ p) : ((v <<< q) >>> p) &&& m = 0 :=
  below_window_extract p m
    (lt_of_lt_of_le (shiftLeft_lt_of_lt q hv)
      (Nat.pow_le_pow_right (by norm_num) h))

theorem above_window_extract_m (v m w : Nat) {q p : Nat}
    (hm : m = 2 ^ w - 1) (h : p + w ≤ q) : ((v <<< q) >>> p) &&& m = 0 := by
  subst hm
  exact above_window_extract v h

theorem match_window_extract_m (v p w m : Nat) (hm : m = 2 ^ w - 1) :
    (((v &&& m) <<< p) >>> p) &&& m = v &&& m := by
  subst hm
  exact match_window_extract v p w

theorem shiftLeft_and_low_zero_m (v m w : Nat) {q : Nat}
    (hm : m = 2 ^ w - 1) (h : w ≤ q) : (v <<< q) &&& m = 0 := by
  subst hm
  exact shiftLeft_and_low_zero v h

theorem and_mask_eq_of_lt {x : Nat} (m w : Nat) (hm : m = 2 ^ w - 1)
    (h : x < 2 ^ w) : x &&& m = x := by
  subst hm
  exact Nat.and_pow_two_sub_one_of_lt_two_pow h

theorem extract_or_zero_both {a b m p : Nat} (ha : (a >>> p) &&& m = 0)
    (hb : (b >>> p) &&& m = 0) : ((a ||| b) >>> p) &&& m = 0 := by
  rw [shiftRight_or_distrib, Nat.and_distrib_right, ha, hb]
  decide

theorem and_or_zero_both {a b m : Nat} (ha : a &&& m = 0)
    (hb : b &&& m = 0) : (a ||| b) &&& m = 0 := by
  rw [Nat.and_distrib_right, ha, hb]
  decide

/--
Claim C7 counterexample: with prescaler 1, propagation segment 1, phase
segment 1 = 16, phase segment 2 = 2, sync jump width 1 (a combination the
claim's advertised ranges allow), a zero prior register value and all
mode flags off, the PSEG1 field of the register written by
`flexcan_set_bittiming` decodes to 7, not `phase_seg1 - 1 = 15`: the
hardware field holds only 3 bits.
-/
theorem flexcan_set_bittiming_roundtrip_cex :
    ctrl_pseg1_field
      (flexcan_set_bittiming_reg 0 1 1 16 2 1 false false false) = 7 ∧
    (16 : Nat) - 1 ≠ 7 := by
  decide

theorem set_bittiming_mode_bits_lt (lb lo ts : Bool) :
    ((if lb then FLEXCAN_CTRL_LPB else 0) |||
     (if lo then FLEXCAN_CTRL_LOM else 0) |||
     (if ts then FLEXCAN_CTRL_SMP else 0)) < 2 ^ 13 := by
  cases lb <;> cases lo <;> cases ts <;> decide

theorem set_bittiming_mode_bits_low (lb lo ts : Bool) :
    ((if lb then FLEXCAN_CTRL_LPB else 0) |||
     (if lo then FLEXCAN_CTRL_LOM else 0) |||
     (if ts then FLEXCAN_CTRL_SMP else 0)) &&& 0x7 = 0 := by
  cases lb <;> cases lo <;> cases ts <;> decide

/-- The register written by `flexcan_set_bittiming`, flattened: the
preserved bits of the old value, the five timing fields, and the three
conditional mode bits. -/
theorem flexcan_set_bittiming_reg_shape
    (reg_old brp prop_seg phase_seg1 phase_seg2 sjw : Nat) (lb lo ts : Bool) :
    flexcan_set_bittiming_reg reg_old brp prop_seg phase_seg1 phase_seg2 sjw
        lb lo ts =
      reg_old &&& 0xEF70 |||
      FLEXCAN_CTRL_PRESDIV (brp - 1) |||
      FLEXCAN_CTRL_PSEG1 (phase_seg1 - 1) |||
      FLEXCAN_CTRL_PSEG2 (phase_seg2 - 1) |||
      FLEXCAN_CTRL_RJW (sjw - 1) |||
      FLEXCAN_CTRL_PROPSEG (prop_seg - 1) |||
      ((if lb then FLEXCAN_CTRL_LPB else 0) |||
       (if lo then FLEXCAN_CTRL_LOM else 0) |||
       (if ts then FLEXCAN_CTRL_SMP else 0)) := by
  have hmask : (0xffffffff : Nat) ^^^
      (FLEXCAN_CTRL_PRESDIV 0xff ||| FLEXCAN_CTRL_RJW 0x3 |||
       FLEXCAN_CTRL_PSEG1 0x7 ||| FLEXCAN_CTRL_PSEG2 0x7 |||
       FLEXCAN_CTRL_PROPSEG 0x7 ||| FLEXCAN_CTRL_LPB |||
       FLEXCAN_CTRL_SMP ||| FLEXCAN_CTRL_LOM) = 0xEF70 := by decide
  cases lb <;> cases lo <;> cases ts <;>
    (simp only [flexcan_set_bittiming_reg]; rw [hmask]; simp [Nat.or_assoc])

/--
Claim C7 (amended): for prescaler 1-256, propagation segment 1-8, phase
segment 1 limited to 1-8 (the capacity of its 3-bit field), phase
segment 2 2-8 and sync jump width 1-4, over any prior register value and
any combination of the mode flags, the register written by
`flexcan_set_bittiming` round-trips: each extracted field reproduces
prescaler-1, the segment lengths minus 1, and sjw-1.
-/
theorem flexcan_set_bittiming_roundtrip_amended
    (reg_old brp prop_seg phase_seg1 phase_seg2 sjw : Nat) (lb lo ts : Bool)
    (hbrp1 : 1 ≤ brp) (hbrp2 : brp ≤ 256)
    (hprop1 : 1 ≤ prop_seg) (hprop2 : prop_seg ≤ 8)
    (hps11 : 1 ≤ phase_seg1) (hps12 : phase_seg1 ≤ 8)
    (hps21 : 2 ≤ phase_seg2) (hps22 : phase_seg2 ≤ 8)
    (hsjw1 : 1 ≤ sjw) (hsjw2 : sjw ≤ 4) :
    ctrl_presdiv_field (flexcan_set_bittiming_reg reg_old brp prop_seg
      phase_seg1 phase_seg2 sjw lb lo ts) = brp - 1 ∧
    ctrl_pseg1_field (flexcan_set_bittiming_reg reg_old brp prop_seg
      phase_seg1 phase_seg2 sjw lb lo ts) = phase_seg1 - 1 ∧
    ctrl_pseg2_field (flexcan_set_bittiming_reg reg_old brp prop_seg
      phase_seg1 phase_seg2 sjw lb lo ts) = phase_seg2 - 1 ∧
    ctrl_rjw_field (flexcan_set_bittiming_reg reg_old brp prop_seg
      phase_seg1 phase_seg2 sjw lb lo ts) = sjw - 1 ∧
    ctrl_propseg_field (flexcan_set_bittiming_reg reg_old brp prop_seg
      phase_seg1 phase_seg2 sjw lb lo ts) = prop_seg - 1 := by
  rw [flexcan_set_bittiming_reg_shape]
  simp only [ctrl_presdiv_field, ctrl_pseg1_field, ctrl_pseg2_field,
    ctrl_rjw_field, ctrl_propseg_field, FLEXCAN_CTRL_PRESDIV,
    FLEXCAN_CTRL_PSEG1, FLEXCAN_CTRL_PSEG2, FLEXCAN_CTRL_RJW,
    FLEXCAN_CTRL_PROPSEG]
  generalize hmode : ((if lb then FLEXCAN_CTRL_LPB else 0) |||
    (if lo then FLEXCAN_CTRL_LOM else 0) |||
    (if ts then FLEXCAN_CTRL_SMP else 0)) = mode
  have hmlt : mode < 2 ^ 13 := hmode ▸ set_bittiming_mode_bits_lt lb lo ts
  have hmlow : mode &&& 0x7 = 0 :=
    hmode ▸ set_bittiming_mode_bits_low lb lo ts
  have hA16 : reg_old &&& 0xEF70 < 2 ^ 16 :=
    lt_of_le_of_lt Nat.and_le_right (by norm_num)
  have hBv : brp - 1 &&& 0xff < 2 ^ 8 := and_lt_two_pow_mask _ (by norm_num)
  have hCv : phase_seg1 - 1 &&& 0x7 < 2 ^ 3 :=
    and_lt_two_pow_mask _ (by norm_num)
  have hDv : phase_seg2 - 1 &&& 0x7 < 2 ^ 3 :=
    and_lt_two_pow_mask _ (by norm_num)
  have hEv : sjw - 1 &&& 0x3 < 2 ^ 2 := and_lt_two_pow_mask _ (by norm_num)
  have hFv : prop_seg - 1 &&& 0x7 < 2 ^ 3 :=
    and_lt_two_pow_mask _ (by norm_num)
  refine ⟨?_, ?_, ?_, ?_, ?_⟩
  · -- PRESDIV, window p = 24, w = 8
    rw [extract_or_zero_right _
        (below_window_extract 24 _ (lt_of_lt_of_le hmlt (by norm_num))),
      extract_or_zero_right _
        (below_window_extract 24 _ (lt_of_lt_of_le hFv (by norm_num))),
      extract_or_zero_right _
        (below_window_extract 24 _ (shiftLeft_lt_of_lt 22 hEv)),
      extract_or_zero_right _
        (below_window_extract 24 _
          (lt_of_lt_of_le (shiftLeft_lt_of_lt 16 hDv) (by norm_num))),
      extract_or_zero_right _
        (below_window_extract 24 _
          (lt_of_lt_of_le (shiftLeft_lt_of_lt 19 hCv) (by norm_num))),
      extract_or_zero_left _
        (below_window_extract 24 _ (lt_of_lt_of_le hA16 (by norm_num))),
      match_window_extract_m (brp - 1) 24 8 0xff (by norm_num),
      and_mask_eq_of_lt 0xff 8 (by norm_num) (by omega)]
  · -- PSEG1, window p = 19, w = 3
    rw [extract_or_zero_right _
        (below_window_extract 19 _ (lt_of_lt_of_le hmlt (by norm_num))),
      extract_or_zero_right _
        (below_window_extract 19 _ (lt_of_lt_of_le hFv (by norm_num))),
      extract_or_zero_right _
        (above_window_extract_m _ 0x7 3 (by norm_num) (by norm_num)),
      extract_or_zero_right _
        (below_window_extract 19 _ (shiftLeft_lt_of_lt 16 hDv)),
      extract_or_zero_left _
        (extract_or_zero_both
          (below_window_extract 19 _ (lt_of_lt_of_le hA16 (by norm_num)))
          (above_window_extract_m _ 0x7 3 (by norm_num) (by norm_num))),
      match_window_extract_m (phase_seg1 - 1) 19 3 0x7 (by norm_num),
      and_mask_eq_of_lt 0x7 3 (by norm_num) (by omega)]
  · -- PSEG2, window p = 16, w = 3
    rw [extract_or_zero_right _
        (below_window_extract 16 _ (lt_of_lt_of_le hmlt (by norm_num))),
      extract_or_zero_right _
        (below_window_extract 16 _ (lt_of_lt_of_le hFv (by norm_num))),
      extract_or_zero_right _
        (above_window_extract_m _ 0x7 3 (by norm_num) (by norm_num)),
      extract_or_zero_left _
        (extract_or_zero_both
          (extract_or_zero_both
            (below_window_extract 16 _ hA16)
            (above_window_extract_m _ 0x7 3 (by norm_num) (by norm_num)))
          (above_window_extract_m _ 0x7 3 (by norm_num) (by norm_num))),
      match_window_extract_m (phase_seg2 - 1) 16 3 0x7 (by norm_num),
      and_mask_eq_of_lt 0x7 3 (by norm_num) (by omega)]
  · -- RJW, window p = 22, w = 2
    rw [extract_or_zero_right _
        (below_window_extract 22 _ (lt_of_lt_of_le hmlt (by norm_num))),
      extract_or_zero_right _
        (below_window_extract 22 _ (lt_of_lt_of_le hFv (by norm_num))),
      extract_or_zero_left _
        (extract_or_zero_both
          (extract_or_zero_both
            (extract_or_zero_both
              (below_window_extract 22 _
                (lt_of_lt_of_le hA16 (by norm_num)))
              (above_window_extract_m _ 0x3 2 (by norm_num) (by norm_num)))
            (below_window_extract 22 _ (shiftLeft_lt_of_lt 19 hCv)))
          (below_window_extract 22 _
            (lt_of_lt_of_le (shiftLeft_lt_of_lt 16 hDv) (by norm_num)))),
      match_window_extract_m (sjw - 1) 22 2 0x3 (by norm_num),
      and_mask_eq_of_lt 0x3 2 (by norm_num) (by omega)]
  · -- PROPSEG, low window, w = 3
    have hAlow : (reg_old &&& 0xEF70) &&& 0x7 = 0 := by
      rw [Nat.and_assoc, show (0xEF70 : Nat) &&& 0x7 = 0 from by decide,
        Nat.and_zero]
    rw [and_or_zero_right _ hmlow,
      and_or_zero_left _
        (and_or_zero_both
          (and_or_zero_both
            (and_or_zero_both
              (and_or_zero_both hAlow
                (shiftLeft_and_low_zero_m _ 0x7 3 (by norm_num) (by norm_num)))
              (shiftLeft_and_low_zero_m _ 0x7 3 (by norm_num) (by norm_num)))
            (shiftLeft_and_low_zero_m _ 0x7 3 (by norm_num) (by norm_num)))
          (shiftLeft_and_low_zero_m _ 0x7 3 (by norm_num) (by norm_num))),
      Nat.and_assoc, show (0x7 : Nat) &&& 0x7 = 0x7 from by decide,
      and_mask_eq_of_lt 0x7 3 (by norm_num) (by omega)]

/-- Concrete instance of the amended C7 theorem at the end-to-end
scenario parameters: prescaler 4, propagation 2, phase 1 = 3, phase 2 = 2,
sjw 1. -/
theorem flexcan_set_bittiming_roundtrip_amended_witness :
    ctrl_presdiv_field (flexcan_set_bittiming_reg 0 4 2 3 2 1
      false false false) = 4 - 1 ∧
    ctrl_pseg1_field (flexcan_set_bittiming_reg 0 4 2 3 2 1
      false false false) = 3 - 1 ∧
    ctrl_pseg2_field (flexcan_set_bittiming_reg 0 4 2 3 2 1
      false false false) = 2 - 1 ∧
    ctrl_rjw_field (flexcan_set_bittiming_reg 0 4 2 3 2 1
      false false false) = 1 - 1 ∧
    ctrl_propseg_field (flexcan_set_bittiming_reg 0 4 2 3 2 1
      false false false) = 2 - 1 :=
  flexcan_set_bittiming_roundtrip_amended 0 4 2 3 2 1 false false false
    (by norm_num) (by norm_num) (by norm_num) (by norm_num) (by norm_num)
    (by norm_num) (by norm_num) (by norm_num) (by norm_num) (by norm_num)

end Flexcan
